import Mathlib

/-! Shallow embedding of the compound-interest calculator repository
(engine and history store of `src/unnamed/part_001`).

Numbers: the TypeScript engine computes in IEEE double precision; the
embedding uses the real numbers, with `Real.exp` for `Math.exp` and real
exponentiation (`Real.rpow`, written `^` on reals) for `Math.pow`.
`time` is a natural number (the spec requires an integral number of
years, and the claims quantify over integral times only).

Dates: JavaScript `Date` values are modelled as plain Gregorian calendar
dates (year, month 1..12, day 1..31); `setFullYear` day-of-month
overflow (Feb 29 in a non-leap target year rolls over to Mar 1) follows
the ECMAScript `MakeDay` normalisation, and `toISOString()` followed by
taking the date part is the zero-padded `YYYY-MM-DD` rendering
(timezone offsets are out of scope: dates are timezone-free here).

Storage: `localStorage` holds a single relevant key
(`calculationHistory`), modelled as `Option StoredJSON`, where
`StoredJSON.good l` abstracts the `JSON.stringify` image of a record
list `l` and `StoredJSON.corrupt s` abstracts any stored string that
`JSON.parse` rejects; a thrown JavaScript exception is modelled as
`Except.error`. -/

namespace CompoundCalc

/-- The `CompoundingFrequency` union type of the source. -/
inductive CompoundingFrequency where
  | annually
  | semiAnnually
  | quarterly
  | monthly
  | weekly
  | daily
  | continuously
deriving DecidableEq

/-- Calendar date model for the JavaScript `Date` values used by the
engine (`startDate` and the per-row dates): year, month (1..12),
day (1..31), timezone-free. -/
structure SimpleDate where
  year : ℕ
  month : ℕ
  day : ℕ
deriving DecidableEq

/-- The `CalculationParams` interface of the source. -/
structure CalculationParams where
  principal : ℝ
  rate : ℝ
  time : ℕ
  frequency : CompoundingFrequency
  startDate : Option SimpleDate

/-- The `YearlyBreakdown` interface of the source. -/
structure YearlyBreakdown where
  year : ℕ
  amount : ℝ
  interestEarned : ℝ
  date : Option String

/-- The `CalculationResult` interface of the source. -/
structure CalculationResult where
  finalAmount : ℝ
  totalInterest : ℝ
  yearlyBreakdown : List YearlyBreakdown
  formula : String

/-- The `CalculationHistory` interface of the source: the spread of the
params and the result, plus `id` and `createdAt`. -/
structure CalculationHistory extends CalculationParams, CalculationResult where
  id : String
  createdAt : String

/-- `getFrequencyValue` of the source: compounds per year, with
JavaScript `Infinity` for the continuous case modelled as `⊤`. -/
def getFrequencyValue : CompoundingFrequency → WithTop ℕ
  | .annually => ((1 : ℕ) : WithTop ℕ)
  | .semiAnnually => ((2 : ℕ) : WithTop ℕ)
  | .quarterly => ((4 : ℕ) : WithTop ℕ)
  | .monthly => ((12 : ℕ) : WithTop ℕ)
  | .weekly => ((52 : ℕ) : WithTop ℕ)
  | .daily => ((365 : ℕ) : WithTop ℕ)
  | .continuously => ⊤

/-- The real number `n` used by the discrete-compounding branch of the
engine.  For the six discrete frequencies this is the finite value of
`getFrequencyValue`; the continuous branch of the engine never reads
`n` (in the source `n` is `Infinity` there and unused), so the junk
value `0` for `⊤` is never consulted. -/
def nValue (f : CompoundingFrequency) : ℝ :=
  ((getFrequencyValue f).untop' 0 : ℕ)

/-- `getFormula` of the source. -/
def getFormula (frequency : CompoundingFrequency) : String :=
  if frequency = CompoundingFrequency.continuously then
    "A = P × e^(rt)"
  else
    "A = P(1 + r/n)^(nt)"

/-- Decimal digit character (used for the fixed-width ISO date fields). -/
def dig (n : ℕ) : Char :=
  "0123456789".toList.getD (n % 10) '0'

/-- Two-digit zero-padded decimal rendering (month and day fields of
`toISOString`). -/
def pad2 (n : ℕ) : String :=
  String.mk [dig (n / 10), dig n]

/-- Four-digit zero-padded decimal rendering (year field of
`toISOString` for years 0..9999). -/
def pad4 (n : ℕ) : String :=
  String.mk [dig (n / 1000), dig (n / 100), dig (n / 10), dig n]

/-- Gregorian leap-year test, as in ECMAScript time computations. -/
def isLeap (y : ℕ) : Bool :=
  y % 4 == 0 && (y % 100 != 0 || y % 400 == 0)

/-- Days in a month of a given year (month numbered 1..12). -/
def daysInMonth (y m : ℕ) : ℕ :=
  if m = 2 then (if isLeap y then 29 else 28)
  else if m = 4 ∨ m = 6 ∨ m = 9 ∨ m = 11 then 30
  else 31

/-- Model of `date.setFullYear(date.getFullYear() + k)` on a valid
calendar date: the year is replaced by `year + k`, and a day-of-month
that does not exist in the target month (only Feb 29 in a non-leap
target year, for valid inputs) overflows into the following month, per
the ECMAScript `MakeDay` normalisation. -/
def setFullYearAdd (d : SimpleDate) (k : ℕ) : SimpleDate :=
  let y := d.year + k
  if d.day ≤ daysInMonth y d.month then
    { year := y, month := d.month, day := d.day }
  else
    { year := y, month := d.month + 1, day := d.day - daysInMonth y d.month }

/-- Model of `date.toISOString().split('T')[0]`: the `YYYY-MM-DD`
zero-padded rendering of a calendar date. -/
def formatISO (d : SimpleDate) : String :=
  pad4 d.year ++ "-" ++ pad2 d.month ++ "-" ++ pad2 d.day

/-- The amount accrued after `y` whole years, exactly as both the
`finalAmount` computation and the loop body of
`calculateCompoundInterest` write it:
`principal * Math.exp((rate / 100) * y)` when compounding continuously,
`principal * Math.pow(1 + (rate / 100) / n, n * y)` otherwise. -/
noncomputable def amountAtYear (p : CalculationParams) (y : ℕ) : ℝ :=
  if p.frequency = CompoundingFrequency.continuously then
    p.principal * Real.exp ((p.rate / 100) * (y : ℝ))
  else
    p.principal * (1 + (p.rate / 100) / nValue p.frequency) ^ (nValue p.frequency * (y : ℝ))

/-- Placeholder breakdown row used as the default of out-of-range list
reads (the source's loop never reads out of range; this is proved, not
assumed, below). -/
noncomputable def dRow : YearlyBreakdown :=
  { year := 0, amount := 0, interestEarned := 0, date := none }

/-- The breakdown-building loop of `calculateCompoundInterest`:
`yearlyBreakdownAux p t` is the array after the iterations
`year = 1 .. t`.  `previousAmount` reads `yearlyBreakdown[year - 2]`
exactly as the source does (the read is in range whenever `year ≥ 2`). -/
noncomputable def yearlyBreakdownAux (p : CalculationParams) : ℕ → List YearlyBreakdown
  | 0 => []
  | t + 1 =>
    let acc := yearlyBreakdownAux p t
    let year := t + 1
    let yearAmount := amountAtYear p year
    let previousAmount := if year = 1 then p.principal else (acc.getD (year - 2) dRow).amount
    let yearDate : Option String :=
      p.startDate.map (fun d => formatISO (setFullYearAdd d year))
    acc ++ [{ year := year, amount := yearAmount,
              interestEarned := yearAmount - previousAmount, date := yearDate }]

/-- Closed form of one breakdown row (row index `i` holds year `i + 1`);
used to state and prove properties of the loop. -/
noncomputable def breakdownRow (p : CalculationParams) (i : ℕ) : YearlyBreakdown :=
  { year := i + 1
    amount := amountAtYear p (i + 1)
    interestEarned :=
      amountAtYear p (i + 1) - (if i = 0 then p.principal else amountAtYear p i)
    date := p.startDate.map (fun d => formatISO (setFullYearAdd d (i + 1))) }

/-- `calculateCompoundInterest` of the source. -/
noncomputable def calculateCompoundInterest (params : CalculationParams) : CalculationResult :=
  { finalAmount := amountAtYear params params.time
    totalInterest := amountAtYear params params.time - params.principal
    yearlyBreakdown := yearlyBreakdownAux params params.time
    formula := getFormula params.frequency }

/-- The validity precondition on engine inputs stated by the spec:
positive principal, positive rate, `time` a positive integer. -/
def ValidParams (p : CalculationParams) : Prop :=
  0 < p.principal ∧ 0 < p.rate ∧ 1 ≤ p.time

/-! ### History store model

`localStorage` is modelled as the content of its single relevant key,
`calculationHistory`: `none` when the key is absent, `some v` when it
holds a string.  The stored string itself is abstracted as
`StoredJSON`: `good l` is the `JSON.stringify` image of the record list
`l` (which `JSON.parse` inverts), `corrupt s` is any string rejected by
`JSON.parse`. -/

/-- Abstraction of the string stored under the `calculationHistory`
key: either the serialisation of a record list, or a corrupted blob. -/
inductive StoredJSON where
  | good : List CalculationHistory → StoredJSON
  | corrupt : String → StoredJSON

/-- Model of the `JSON.parse` call in `getCalculationHistory`: inverts
`JSON.stringify` on well-formed payloads and throws (modelled as
`Except.error`) on anything else. -/
def parseHistory : StoredJSON → Except String (List CalculationHistory)
  | .good l => Except.ok l
  | .corrupt s => Except.error s

/-- `getCalculationHistory` of the source:
`history ? JSON.parse(history) : []`.  There is no catch around
`JSON.parse`, so a parse failure propagates. -/
def getCalculationHistory (store : Option StoredJSON) :
    Except String (List CalculationHistory) :=
  match store with
  | some h => parseHistory h
  | none => Except.ok []

/-- Base-36 digit character, as used by `Number.prototype.toString(36)`. -/
def base36digit (n : ℕ) : Char :=
  "0123456789abcdefghijklmnopqrstuvwxyz".toList.getD n '0'

/-- Fuel-driven base-36 digit list of a natural number (`fuel ≥ n`
suffices, so calling it with `fuel = n` is always enough). -/
def toBase36Core : ℕ → ℕ → List Char
  | 0, n => [base36digit n]
  | fuel + 1, n =>
    if n < 36 then [base36digit n]
    else toBase36Core fuel (n / 36) ++ [base36digit (n % 36)]

/-- `n.toString(36)` for a natural number `n`. -/
def toBase36 (n : ℕ) : String :=
  String.mk (toBase36Core n n)

/-- `generateId` of the source:
`Date.now().toString(36) + Math.random().toString(36).substring(2)`.
The ambient clock reading (`nowMs`, milliseconds) and the random
fractional suffix (`randFrac`, possibly empty: `Math.random()` can
return `0`, whose rendering has no fractional digits) are environment
inputs, passed explicitly. -/
def generateId (nowMs : ℕ) (randFrac : String) : String :=
  toBase36 nowMs ++ randFrac

/-- The history record built by `saveCalculation`: the spread of the
params and the result plus the freshly generated id and timestamp. -/
def savedRecord (params : CalculationParams) (result : CalculationResult)
    (nowMs : ℕ) (randFrac : String) (createdAt : String) : CalculationHistory :=
  { toCalculationParams := params
    toCalculationResult := result
    id := generateId nowMs randFrac
    createdAt := createdAt }

/-- `saveCalculation` of the source: reads the persisted history (a
parse failure there propagates), prepends (`unshift`) the new record
and persists the updated collection.  The clock and PRNG readings are
environment inputs. -/
def saveCalculation (params : CalculationParams) (result : CalculationResult)
    (nowMs : ℕ) (randFrac : String) (createdAt : String)
    (store : Option StoredJSON) : Except String (Option StoredJSON) := do
  let historyItem := savedRecord params result nowMs randFrac createdAt
  let history ← getCalculationHistory store
  pure (some (StoredJSON.good (historyItem :: history)))

/-- `deleteCalculation` of the source: keeps every record whose `id`
differs from the argument and persists the filtered collection. -/
def deleteCalculation (id : String) (store : Option StoredJSON) :
    Except String (Option StoredJSON) := do
  let history ← getCalculationHistory store
  pure (some (StoredJSON.good (history.filter fun item => item.id != id)))

/-- `clearCalculationHistory` of the source: persists an empty list. -/
def clearCalculationHistory (_store : Option StoredJSON) : Option StoredJSON :=
  some (StoredJSON.good [])

/-! ### The claimed properties, as predicates over the embedded code -/

/-- C1 property: discrete-frequency final amount is
`principal * (1 + (rate/100)/n) ^ (n * time)` with `n` the
periods-per-year table value, and in the annual case the simplified
closed form `principal * (1 + rate/100) ^ time`. -/
def C1Prop (p : CalculationParams) : Prop :=
  (calculateCompoundInterest p).finalAmount
      = p.principal * (1 + (p.rate / 100) / nValue p.frequency)
          ^ (nValue p.frequency * (p.time : ℝ))
  ∧ nValue .annually = 1 ∧ nValue .semiAnnually = 2 ∧ nValue .quarterly = 4
  ∧ nValue .monthly = 12 ∧ nValue .weekly = 52 ∧ nValue .daily = 365
  ∧ (p.frequency = .annually →
      (calculateCompoundInterest p).finalAmount
        = p.principal * (1 + p.rate / 100) ^ p.time)

/-- C2 property: continuous-frequency final amount is
`principal * exp((rate/100) * time)` with the fixed continuous formula
label, and every discrete frequency carries the fixed discrete label. -/
def C2Prop (p : CalculationParams) : Prop :=
  (p.frequency = .continuously →
      (calculateCompoundInterest p).finalAmount
          = p.principal * Real.exp ((p.rate / 100) * (p.time : ℝ))
      ∧ (calculateCompoundInterest p).formula = "A = P × e^(rt)")
  ∧ (p.frequency ≠ .continuously →
      (calculateCompoundInterest p).formula = "A = P(1 + r/n)^(nt)")

/-- C3 property: the breakdown has length `time` and row `i` carries
year `i + 1`. -/
def C3Prop (p : CalculationParams) : Prop :=
  (calculateCompoundInterest p).yearlyBreakdown.length = p.time
  ∧ ∀ i, i < p.time →
      ((calculateCompoundInterest p).yearlyBreakdown.getD i dRow).year = i + 1

/-- C4 property: `totalInterest = finalAmount - principal`, row amounts
are the year amounts, row interest is the difference of consecutive
year amounts (with year 0 worth the principal), and the first row's
interest is its amount minus the principal. -/
def C4Prop (p : CalculationParams) : Prop :=
  (calculateCompoundInterest p).totalInterest
      = (calculateCompoundInterest p).finalAmount - p.principal
  ∧ amountAtYear p 0 = p.principal
  ∧ (∀ i, i < p.time →
      ((calculateCompoundInterest p).yearlyBreakdown.getD i dRow).amount
        = amountAtYear p (i + 1))
  ∧ (∀ i, i < p.time →
      ((calculateCompoundInterest p).yearlyBreakdown.getD i dRow).interestEarned
        = amountAtYear p (i + 1) - amountAtYear p i)
  ∧ (1 ≤ p.time →
      ((calculateCompoundInterest p).yearlyBreakdown.getD 0 dRow).interestEarned
        = ((calculateCompoundInterest p).yearlyBreakdown.getD 0 dRow).amount - p.principal)

/-- C5 property: the last breakdown row's amount equals the final
amount. -/
def C5Prop (p : CalculationParams) : Prop :=
  ((calculateCompoundInterest p).yearlyBreakdown.getD (p.time - 1) dRow).amount
    = (calculateCompoundInterest p).finalAmount

/-- C6 property (amended): `list()` yields the empty collection when
nothing is persisted, and propagates the parse failure when the
persisted data is corrupted (the source has no catch around
`JSON.parse`). -/
def C6Prop : Prop :=
  getCalculationHistory none = Except.ok []
  ∧ ∀ s, getCalculationHistory (some (StoredJSON.corrupt s)) = Except.error s

/-- C7 property (amended): saving prepends the merged record (exactly
the params fields, result fields, generated id and timestamp) to the
prior collection, which follows unchanged and in order; the new id
differs from every prior id whenever the generated id does not already
occur among them. -/
def C7Prop (params : CalculationParams) (result : CalculationResult)
    (nowMs : ℕ) (randFrac createdAt : String)
    (prior : List CalculationHistory) : Prop :=
  saveCalculation params result nowMs randFrac createdAt
      (some (StoredJSON.good prior))
    = Except.ok (some (StoredJSON.good
        (savedRecord params result nowMs randFrac createdAt :: prior)))
  ∧ getCalculationHistory (some (StoredJSON.good
        (savedRecord params result nowMs randFrac createdAt :: prior)))
    = Except.ok (savedRecord params result nowMs randFrac createdAt :: prior)
  ∧ (savedRecord params result nowMs randFrac createdAt).toCalculationParams = params
  ∧ (savedRecord params result nowMs randFrac createdAt).toCalculationResult = result
  ∧ (savedRecord params result nowMs randFrac createdAt).id = generateId nowMs randFrac
  ∧ ∀ q ∈ prior, (savedRecord params result nowMs randFrac createdAt).id ≠ q.id

/-- C8 property (amended): for every collection (duplicate ids
included), `deleteById` persists the collection with every matching
record removed, the kept records are a sublist (original relative
order), and an absent id is a no-op; additionally, when the
collection's ids are pairwise distinct, deleting a present id removes
exactly one record. -/
def C8Prop (id : String) (l : List CalculationHistory) : Prop :=
  deleteCalculation id (some (StoredJSON.good l))
      = Except.ok (some (StoredJSON.good (l.filter fun r => r.id != id)))
  ∧ (l.filter fun r => r.id != id).Sublist l
  ∧ ((∀ r ∈ l, r.id ≠ id) → (l.filter fun r => r.id != id) = l)
  ∧ ((l.map CalculationHistory.id).Nodup →
      ∀ r ∈ l, r.id = id → (l.filter fun r => r.id != id).length + 1 = l.length)

/-- C9 property (amended): a row's date is present iff `startDate` was
supplied, and equals the start date with the year advanced by the row's
year under the `setFullYear` day-overflow normalisation, ISO formatted;
whenever the start day exists in the target month the shift keeps the
month and day unchanged. -/
def C9Prop (p : CalculationParams) : Prop :=
  (∀ i, i < p.time →
      ((calculateCompoundInterest p).yearlyBreakdown.getD i dRow).date
        = p.startDate.map (fun d => formatISO (setFullYearAdd d (i + 1))))
  ∧ ∀ (d : SimpleDate) (k : ℕ), d.day ≤ daysInMonth (d.year + k) d.month →
      setFullYearAdd d k = { year := d.year + k, month := d.month, day := d.day }

/-! ### Concrete example values used by witnesses and counterexamples -/

/-- Example parameters: 1000 at 5% for 3 years, compounded annually. -/
def exAnnualParams : CalculationParams :=
  { principal := 1000, rate := 5, time := 3, frequency := .annually, startDate := none }

/-- Example parameters: 1000 at 5% for 2 years, compounded continuously. -/
def exContinuousParams : CalculationParams :=
  { principal := 1000, rate := 5, time := 2, frequency := .continuously, startDate := none }

/-- Example parameters: 1000 at 5% for 3 years, compounded monthly. -/
def exMonthlyParams : CalculationParams :=
  { principal := 1000, rate := 5, time := 3, frequency := .monthly, startDate := none }

/-- Example parameters: 1000 at 5% for 2 years, compounded daily. -/
def exDailyParams : CalculationParams :=
  { principal := 1000, rate := 5, time := 2, frequency := .daily, startDate := none }

/-- Example parameters: 1000 at 5% for 4 years, compounded quarterly. -/
def exQuarterlyParams : CalculationParams :=
  { principal := 1000, rate := 5, time := 4, frequency := .quarterly, startDate := none }

/-- Example parameters with a start date of 2020-01-15. -/
def exDatedParams : CalculationParams :=
  { principal := 1000, rate := 5, time := 2, frequency := .annually,
    startDate := some { year := 2020, month := 1, day := 15 } }

/-- Example parameters starting on a leap day, 2024-02-29. -/
def exLeapDayParams : CalculationParams :=
  { principal := 1000, rate := 5, time := 1, frequency := .annually,
    startDate := some { year := 2024, month := 2, day := 29 } }

/-- A trivial result value, used where a record's result content is
irrelevant. -/
def exResult : CalculationResult :=
  { finalAmount := 0, totalInterest := 0, yearlyBreakdown := [], formula := "" }

/-- A persisted record whose id is `"0"` (ids in storage are arbitrary
strings). -/
def exStoredRecord : CalculationHistory :=
  { toCalculationParams := exAnnualParams, toCalculationResult := exResult,
    id := "0", createdAt := "2024-01-01T00:00:00.000Z" }

/-- A persisted record with id `"d"`. -/
def exDupRecordA : CalculationHistory :=
  { toCalculationParams := exAnnualParams, toCalculationResult := exResult,
    id := "d", createdAt := "2024-01-01T00:00:00.000Z" }

/-- A second, distinct persisted record that also has id `"d"` (nothing
in the code prevents duplicate ids in storage). -/
def exDupRecordB : CalculationHistory :=
  { toCalculationParams := exAnnualParams, toCalculationResult := exResult,
    id := "d", createdAt := "2024-02-01T00:00:00.000Z" }

end CompoundCalc

namespace CompoundCalc

/-! ### Supporting lemmas -/

/-- Reading index `i < n` from `(List.range n).map f` with a default
yields `f i`. -/
theorem getD_map_range {α : Type} (f : ℕ → α) (d : α) {n i : ℕ} (h : i < n) :
    ((List.range n).map f).getD i d = f i := by
  have hl : i < ((List.range n).map f).length := by simpa using h
  rw [List.getD_eq_getElem _ _ hl, List.getElem_map, List.getElem_range]

/-- The amount at year 0 is the principal, in both branches of the
engine (`x ^ 0 = 1` and `exp 0 = 1`). -/
theorem amountAtYear_zero (p : CalculationParams) : amountAtYear p 0 = p.principal := by
  unfold amountAtYear
  split
  · simp
  · simp

/-- Closed form of the breakdown loop: after the iterations
`year = 1 .. t` the array is exactly the rows
`breakdownRow p 0 .. breakdownRow p (t - 1)`; in particular every
`yearlyBreakdown[year - 2]` read of the source is in range. -/
theorem yearlyBreakdownAux_closed (p : CalculationParams) (t : ℕ) :
    yearlyBreakdownAux p t = (List.range t).map (breakdownRow p) := by
  induction t with
  | zero => rfl
  | succ t ih =>
    rw [yearlyBreakdownAux, ih, List.range_succ, List.map_append, List.map_cons,
      List.map_nil]
    match t with
    | 0 => simp [breakdownRow]
    | s + 1 =>
      have hprev : ((List.range (s + 1)).map (breakdownRow p)).getD (s + 1 + 1 - 2) dRow
          = breakdownRow p s := by
        have h : s + 1 + 1 - 2 = s := by omega
        rw [h]
        exact getD_map_range _ _ (Nat.lt_succ_self s)
      simp only [hprev]
      simp [breakdownRow]

/-- With pairwise-distinct ids, removing every record matching a
present id shortens the collection by exactly one record. -/
theorem filter_length_of_present (id : String) :
    ∀ (l : List CalculationHistory), (l.map CalculationHistory.id).Nodup →
      ∀ r ∈ l, r.id = id →
        (l.filter fun x => x.id != id).length + 1 = l.length := by
  intro l
  induction l with
  | nil => intro _ r hr; cases hr
  | cons a t ih =>
    intro hnd r hr hid
    rw [List.map_cons, List.nodup_cons] at hnd
    rw [List.filter_cons]
    rcases List.mem_cons.mp hr with rfl | hrt
    · have hcond : (r.id != id) = false := by simp [hid]
      have hkeep : t.filter (fun x => x.id != id) = t := by
        apply List.filter_eq_self.mpr
        intro b hb
        rw [bne_iff_ne]
        intro hbid
        exact hnd.1 (hid ▸ hbid ▸ List.mem_map_of_mem CalculationHistory.id hb)
      rw [if_neg (by simp [hcond])]
      rw [hkeep, List.length_cons]
    · have haid : (a.id != id) = true := by
        rw [bne_iff_ne]
        intro h
        exact hnd.1 (h ▸ hid ▸ List.mem_map_of_mem CalculationHistory.id hrt)
      rw [if_pos (by simp [haid])]
      have h := ih hnd.2 r hrt hid
      simp only [List.length_cons]
      omega

/-! ### Claims -/

/-- C1: for every valid params with a discrete frequency, the engine's
final amount is `principal * (1 + (rate/100)/n) ^ (n * time)` where `n`
is the periods-per-year of the frequency (1, 2, 4, 12, 52, 365 for
annually, semi-annually, quarterly, monthly, weekly, daily); in
particular for the annual frequency the final amount is exactly
`principal * (1 + rate/100) ^ time`. -/
theorem C1_discrete_formula (p : CalculationParams) (hv : ValidParams p)
    (hd : p.frequency ≠ CompoundingFrequency.continuously) : C1Prop p := by
  refine ⟨?_, ?_, ?_, ?_, ?_, ?_, ?_, ?_⟩
  · simp only [calculateCompoundInterest, amountAtYear, if_neg hd]
  · show ((1 : ℕ) : ℝ) = 1; norm_num
  · show ((2 : ℕ) : ℝ) = 2; norm_num
  · show ((4 : ℕ) : ℝ) = 4; norm_num
  · show ((12 : ℕ) : ℝ) = 12; norm_num
  · show ((52 : ℕ) : ℝ) = 52; norm_num
  · show ((365 : ℕ) : ℝ) = 365; norm_num
  · intro hfa
    have h1 : nValue p.frequency = 1 := by
      rw [hfa]; show ((1 : ℕ) : ℝ) = 1; norm_num
    simp only [calculateCompoundInterest, amountAtYear, if_neg hd, h1]
    rw [div_one, one_mul, Real.rpow_natCast]

/-- Witness for C1 at principal 1000, rate 5, time 3, annually. -/
theorem C1_discrete_formula_witness :
    ValidParams exAnnualParams
    ∧ exAnnualParams.frequency ≠ CompoundingFrequency.continuously
    ∧ C1Prop exAnnualParams :=
  ⟨by norm_num [ValidParams, exAnnualParams], by decide,
   C1_discrete_formula exAnnualParams
     (by norm_num [ValidParams, exAnnualParams]) (by decide)⟩

/-- C2: for every valid params with the continuous frequency the final
amount is `principal * exp((rate/100) * time)` and the formula field is
the fixed string "A = P × e^(rt)"; for every discrete frequency the
formula field is the fixed string "A = P(1 + r/n)^(nt)". -/
theorem C2_continuous_formula (p : CalculationParams) (hv : ValidParams p) : C2Prop p := by
  constructor
  · intro hc
    constructor
    · simp only [calculateCompoundInterest, amountAtYear, if_pos hc]
    · simp only [calculateCompoundInterest, getFormula, if_pos hc]
  · intro hd
    simp only [calculateCompoundInterest, getFormula, if_neg hd]

/-- Witness for C2 at principal 1000, rate 5, time 2, continuously. -/
theorem C2_continuous_formula_witness :
    ValidParams exContinuousParams ∧ C2Prop exContinuousParams :=
  ⟨by norm_num [ValidParams, exContinuousParams],
   C2_continuous_formula exContinuousParams
     (by norm_num [ValidParams, exContinuousParams])⟩

/-- C3: for every valid params the yearly breakdown has length exactly
`time` and row `i` carries year `i + 1`: years are 1-based, contiguous
and ascending. -/
theorem C3_breakdown_shape (p : CalculationParams) (hv : ValidParams p) : C3Prop p := by
  constructor
  · simp [calculateCompoundInterest, yearlyBreakdownAux_closed]
  · intro i hi
    simp only [calculateCompoundInterest, yearlyBreakdownAux_closed,
      getD_map_range _ _ hi]
    rfl

/-- Witness for C3 at principal 1000, rate 5, time 3, monthly. -/
theorem C3_breakdown_shape_witness :
    ValidParams exMonthlyParams ∧ C3Prop exMonthlyParams :=
  ⟨by norm_num [ValidParams, exMonthlyParams],
   C3_breakdown_shape exMonthlyParams
     (by norm_num [ValidParams, exMonthlyParams])⟩

/-- C4: for every valid params, `totalInterest = finalAmount -
principal` exactly; each row's amount is the amount at its year, its
interest earned is the amount at its year minus the amount at the
previous year (with the amount at year 0 being the principal); and the
first row's interest earned is its amount minus the principal. -/
theorem C4_interest_decomposition (p : CalculationParams) (hv : ValidParams p) : C4Prop p := by
  refine ⟨rfl, amountAtYear_zero p, ?_, ?_, ?_⟩
  · intro i hi
    simp only [calculateCompoundInterest, yearlyBreakdownAux_closed,
      getD_map_range _ _ hi]
    rfl
  · intro i hi
    simp only [calculateCompoundInterest, yearlyBreakdownAux_closed,
      getD_map_range _ _ hi]
    match i with
    | 0 => simp [breakdownRow, amountAtYear_zero]
    | j + 1 => simp [breakdownRow]
  · intro h1
    simp only [calculateCompoundInterest, yearlyBreakdownAux_closed,
      getD_map_range _ _ h1]
    simp [breakdownRow]

/-- Witness for C4 at principal 1000, rate 5, time 4, quarterly. -/
theorem C4_interest_decomposition_witness :
    ValidParams exQuarterlyParams ∧ C4Prop exQuarterlyParams :=
  ⟨by norm_num [ValidParams, exQuarterlyParams],
   C4_interest_decomposition exQuarterlyParams
     (by norm_num [ValidParams, exQuarterlyParams])⟩

/-- C5: for every valid params (hence every frequency) the last
breakdown row's amount equals the final amount: both are the very same
`amountAtYear p time` expression of the source, so the equality is
exact (and bit-identical under any deterministic arithmetic). -/
theorem C5_last_row_is_final (p : CalculationParams) (hv : ValidParams p) : C5Prop p := by
  obtain ⟨-, -, h1⟩ := hv
  have ht : p.time - 1 < p.time := by omega
  show ((calculateCompoundInterest p).yearlyBreakdown.getD (p.time - 1) dRow).amount
      = (calculateCompoundInterest p).finalAmount
  simp only [calculateCompoundInterest, yearlyBreakdownAux_closed,
    getD_map_range _ _ ht]
  show amountAtYear p (p.time - 1 + 1) = amountAtYear p p.time
  congr 1
  omega

/-- Witness for C5 at principal 1000, rate 5, time 2, daily. -/
theorem C5_last_row_is_final_witness :
    ValidParams exDailyParams ∧ C5Prop exDailyParams :=
  ⟨by norm_num [ValidParams, exDailyParams],
   C5_last_row_is_final exDailyParams
     (by norm_num [ValidParams, exDailyParams])⟩

/-- C6 (amended): `list()` returns the empty collection when nothing is
persisted; when the persisted data is corrupted (unparsable) the parse
failure propagates to the caller — the source wraps `JSON.parse` in no
try/catch, so it does not degrade to an empty sequence. -/
theorem C6_list_error_modes : C6Prop :=
  ⟨rfl, fun _ => rfl⟩

/-- C6 counterexample: on the corrupted stored payload "not json" the
source's `list()` propagates a parse failure instead of returning the
empty collection claimed. -/
theorem C6_counterexample :
    getCalculationHistory (some (StoredJSON.corrupt "not json"))
        = Except.error "not json"
    ∧ (Except.error "not json" : Except String (List CalculationHistory))
        ≠ Except.ok [] :=
  ⟨rfl, fun h => Except.noConfusion h⟩

/-- C7 (amended): saving prepends to the prior collection a record that
carries exactly the params fields, the result fields, the generated id
`generateId nowMs randFrac` and the timestamp, leaving the prior
records unchanged and in order; the new id is distinct from all prior
ids whenever the generated id does not already occur among them — the
code itself performs no uniqueness check. -/
theorem C7_save_roundtrip (params : CalculationParams) (result : CalculationResult)
    (nowMs : ℕ) (randFrac createdAt : String) (prior : List CalculationHistory)
    (hfresh : generateId nowMs randFrac ∉ prior.map CalculationHistory.id) :
    C7Prop params result nowMs randFrac createdAt prior := by
  refine ⟨rfl, rfl, rfl, rfl, rfl, ?_⟩
  intro q hq hEq
  apply hfresh
  have hid : generateId nowMs randFrac = q.id := hEq
  rw [hid]
  exact List.mem_map_of_mem CalculationHistory.id hq

/-- Witness for C7: saving over a one-record collection with clock
reading 1 ms and random suffix "z" (generated id "1z", fresh). -/
theorem C7_save_roundtrip_witness :
    generateId 1 "z" ∉ ([exStoredRecord].map CalculationHistory.id)
    ∧ C7Prop exAnnualParams exResult 1 "z" "2024-03-01T00:00:00.000Z" [exStoredRecord] :=
  ⟨by decide,
   C7_save_roundtrip exAnnualParams exResult 1 "z" "2024-03-01T00:00:00.000Z"
     [exStoredRecord] (by decide)⟩

/-- C7 counterexample: with clock reading 0 ms and an empty random
suffix (`Math.random()` returning 0 yields no fractional base-36
digits) the generated id is "0", which collides with the id of an
already-persisted record, so the first listed element's id is not
distinct from all prior ids as claimed. -/
theorem C7_counterexample :
    saveCalculation exAnnualParams exResult 0 "" "2024-03-01T00:00:00.000Z"
        (some (StoredJSON.good [exStoredRecord]))
      = Except.ok (some (StoredJSON.good
          [savedRecord exAnnualParams exResult 0 "" "2024-03-01T00:00:00.000Z",
           exStoredRecord]))
    ∧ (savedRecord exAnnualParams exResult 0 "" "2024-03-01T00:00:00.000Z").id
      = exStoredRecord.id := by
  constructor
  · rfl
  · decide

/-- C8 (amended): for every collection and id, `deleteById` persists
the collection with every record of matching id removed (`filter`),
preserving the relative order of the kept records, and an unknown id
leaves the collection unchanged; when additionally the collection's
ids are pairwise distinct, deleting a present id removes exactly one
record. -/
theorem C8_delete_filters (id : String) (l : List CalculationHistory) : C8Prop id l := by
  refine ⟨rfl, List.filter_sublist l, ?_, ?_⟩
  · intro h
    apply List.filter_eq_self.mpr
    intro a ha
    rw [bne_iff_ne]
    exact h a ha
  · exact fun hnd r hr hid => filter_length_of_present id l hnd r hr hid

/-- Witness for C8: deleting the present id "0" from a one-record
collection, whose ids are trivially distinct, so every conjunct
(including the distinct-ids one) is exercised. -/
theorem C8_delete_filters_witness :
    ([exStoredRecord].map CalculationHistory.id).Nodup ∧ C8Prop "0" [exStoredRecord] :=
  ⟨by decide, C8_delete_filters "0" [exStoredRecord]⟩

/-- C8 counterexample: with two records sharing id "d" (duplicate ids in
storage are not prevented by the code), `deleteById "d"` removes both
records, not exactly one. -/
theorem C8_counterexample :
    deleteCalculation "d" (some (StoredJSON.good [exDupRecordA, exDupRecordB]))
        = Except.ok (some (StoredJSON.good []))
    ∧ ([] : List CalculationHistory).length ≠ [exDupRecordA, exDupRecordB].length - 1 := by
  constructor
  · rfl
  · decide

/-- C9 (amended): every breakdown row's date is present iff `startDate`
was supplied, and equals the start date with its year advanced by the
row's year under the `setFullYear` day-overflow normalisation (Feb 29
rolls to Mar 1 in a non-leap target year), formatted `YYYY-MM-DD`;
whenever the start day exists in the target month, the shift keeps the
month and day unchanged. -/
theorem C9_breakdown_dates (p : CalculationParams) (hv : ValidParams p) : C9Prop p := by
  constructor
  · intro i hi
    simp only [calculateCompoundInterest, yearlyBreakdownAux_closed,
      getD_map_range _ _ hi]
    rfl
  · intro d k h
    simp only [setFullYearAdd]
    rw [if_pos h]

/-- Witness for C9 with start date 2020-01-15 (no overflow). -/
theorem C9_breakdown_dates_witness :
    ValidParams exDatedParams ∧ C9Prop exDatedParams :=
  ⟨by norm_num [ValidParams, exDatedParams],
   C9_breakdown_dates exDatedParams
     (by norm_num [ValidParams, exDatedParams])⟩

/-- C9 counterexample: starting on the leap day 2024-02-29, the first
row's date is "2025-03-01" (the `setFullYear` overflow), not the
same-month-same-day date 2025-02-29 the claim requires. -/
theorem C9_counterexample :
    ((calculateCompoundInterest exLeapDayParams).yearlyBreakdown.getD 0 dRow).date
        = some "2025-03-01"
    ∧ ((calculateCompoundInterest exLeapDayParams).yearlyBreakdown.getD 0 dRow).date
        ≠ some (formatISO { year := 2024 + 1, month := 2, day := 29 }) := by
  constructor
  · rfl
  · decide

/-- C10: with time 0 (any principal, rate, frequency and start date)
the engine does not fail: the breakdown is empty, the final amount is
the principal, and the total interest is 0. -/
theorem C10_time_zero (principal rate : ℝ) (frequency : CompoundingFrequency)
    (startDate : Option SimpleDate) :
    (calculateCompoundInterest
        { principal := principal, rate := rate, time := 0,
          frequency := frequency, startDate := startDate }).yearlyBreakdown = []
    ∧ (calculateCompoundInterest
        { principal := principal, rate := rate, time := 0,
          frequency := frequency, startDate := startDate }).finalAmount = principal
    ∧ (calculateCompoundInterest
        { principal := principal, rate := rate, time := 0,
          frequency := frequency, startDate := startDate }).totalInterest = 0 := by
  refine ⟨rfl, ?_, ?_⟩
  · exact amountAtYear_zero _
  · show amountAtYear _ 0 - principal = 0
    rw [amountAtYear_zero]
    exact sub_self principal

end CompoundCalc
